import Mathlib

/-!
Verification development for the F1 22 UDP telemetry logger core
(`f1_telemetry_logger.py`): wire-format decoding, session/lap state
tracking, and lap-completion reconciliation.

Modelling conventions:
* A datagram is a `List ℕ` of bytes; every read applies `% 256`, so the
  model agrees with the Python `struct` module on genuine byte buffers.
* `struct.unpack` / `struct.unpack_from` fail exactly when the buffer is
  too short for the whole format; the parsers below return `none` in
  precisely those cases (each parser also forces the last byte of its
  format so that the success condition is the same length bound).
* Times are modelled in `ℚ`.  The Python code computes
  `round(ms / 1000.0, 3)` on integer millisecond inputs; for
  `|ms| < 2^33` the float `ms / 1000.0` is within `2^-40` of the exact
  rational, so rounding to three decimals represents exactly `ms / 1000`,
  which is the rational used here.  Sign tests on these values agree with
  the float code for the same reason.
* `uuid.uuid4()` is modelled by a fresh-id counter `next_uuid` carried in
  the tracker state; uuid4 collision-freedom corresponds to hypotheses
  that the counter value is unused.
* The module-level globals of the Python file form the `TrackerState`
  record; `log` collects the rows appended to the CSV file by
  `log_lap_data_to_csv`.
-/

/-- Read one byte of a datagram. Real datagram entries are bytes; `% 256`
makes the model total on arbitrary `List ℕ` without changing it on
genuine byte buffers. -/

def byteAt (d : List ℕ) (i : ℕ) : Option ℕ :=
  (d.get? i).map (· % 256)

/-- Little-endian `uint16` at offset `i` (`struct` format `<H`). -/

def readU16 (d : List ℕ) (i : ℕ) : Option ℕ :=
  match byteAt d i, byteAt d (i + 1) with
  | some b0, some b1 => some (b0 + 256 * b1)
  | _, _ => none

/-- Little-endian `uint32` at offset `i` (`struct` format `<I`). -/

def readU32 (d : List ℕ) (i : ℕ) : Option ℕ :=
  match byteAt d i, byteAt d (i + 1), byteAt d (i + 2), byteAt d (i + 3) with
  | some b0, some b1, some b2, some b3 =>
      some (b0 + 256 * b1 + 65536 * b2 + 16777216 * b3)
  | _, _, _, _ => none

/-- Little-endian `uint64` at offset `i` (`struct` format `<Q`). -/

def readU64 (d : List ℕ) (i : ℕ) : Option ℕ :=
  match readU32 d i, readU32 d (i + 4) with
  | some lo, some hi => some (lo + 4294967296 * hi)
  | _, _ => none

/-- Signed reinterpretation of one byte (`struct` format `<b`). -/

def toInt8 (b : ℕ) : ℤ :=
  if b < 128 then (b : ℤ) else (b : ℤ) - 256

/-- Source `PACKET_HEADER_FORMAT = '<HBBBBQfIBB'`, `struct.calcsize` = 24. -/

def PACKET_HEADER_SIZE : ℕ := 24

/-- Source `LAP_DATA_SINGLE_CAR_FORMAT = '<IIHHfffBBBBBBBBBBBBBHHB'`: the field
widths of the format string exactly as written in the source (two `I`,
two `H`, three `f`, a run of thirteen `B`, two `H`, one `B`). -/

def LAP_DATA_SINGLE_CAR_FORMAT : List ℕ :=
  [4, 4, 2, 2, 4, 4, 4] ++ List.replicate 13 1 ++ [2, 2, 1]

/-- Value of `struct.calcsize(LAP_DATA_SINGLE_CAR_FORMAT)` (no padding under `<`). -/

def LAP_DATA_SINGLE_CAR_SIZE : ℕ := LAP_DATA_SINGLE_CAR_FORMAT.sum

/-- Source `LAP_HISTORY_ENTRY_FORMAT = '<IHHHB'`, 11 bytes. -/

def LAP_HISTORY_ENTRY_SIZE : ℕ := 11

/-- Source `SESSION_HISTORY_LEAD_DATA_FORMAT = '<BBBBBBB'`, 7 bytes. -/

def SESSION_HISTORY_LEAD_DATA_SIZE : ℕ := 7

/-- The fields of `parse_packet_header` that the logger consumes
(the remaining tuple slots are bound to `_` at every call site). -/

structure PacketHeader where
  packetFormat : ℕ   -- uint16 at offset 0
  packetId : ℕ       -- uint8 at offset 5
  sessionUID : ℕ     -- uint64 at offset 6
  playerCarIndex : ℕ -- uint8 at offset 22
deriving DecidableEq, Repr

/-- Model of `parse_packet_header`: `struct.unpack('<HBBBBQfIBB', data[:24])`.
Succeeds exactly when the buffer holds at least the 24 header bytes
(byte 23 is forced for that reason); the float `m_sessionTime` and the
other unused slots are discarded, as at every call site. -/

def parse_packet_header (d : List ℕ) : Option PacketHeader :=
  match readU16 d 0, byteAt d 5, readU64 d 6, byteAt d 22, byteAt d 23 with
  | some fmt, some pid, some uid, some idx, some _sidx =>
      some ⟨fmt, pid, uid, idx⟩
  | _, _, _, _, _ => none

/-- The session-payload fields unpacked by `process_session_packet` with
`struct.unpack_from('<BbbBHBb', data, 24)` that are actually used. -/

structure SessionPayload where
  weather : ℕ     -- uint8 at offset 24
  sessionType : ℕ -- uint8 at offset 30
  trackId : ℤ     -- int8 at offset 31
deriving DecidableEq, Repr

/-- Unpack of `'<BbbBHBb'` at offset 24: succeeds iff the buffer holds at
least 32 bytes (forcing byte 31 gives exactly that bound). -/

def parseSessionPayload (d : List ℕ) : Option SessionPayload :=
  match byteAt d 24, byteAt d 30, byteAt d 31 with
  | some w, some ty, some tr => some ⟨w, ty, toInt8 tr⟩
  | _, _, _ => none

/-- Lead-in of `PacketSessionHistoryData`, `'<BBBBBBB'` at offset 24.
`m_carIdx` is unpacked into `_car_idx_payload` and then never used by
the source; it is kept here to record that fact. -/

structure SessionHistoryLead where
  carIdxPayload : ℕ -- uint8 at offset 24, ignored by the tracker
  numLaps : ℕ       -- uint8 at offset 25
deriving DecidableEq, Repr

/-- Unpack of the 7-byte history lead-in: succeeds iff length ≥ 31. -/

def parseSessionHistoryLead (d : List ℕ) : Option SessionHistoryLead :=
  match byteAt d 24, byteAt d 25, byteAt d 30 with
  | some c, some n, some _b => some ⟨c, n⟩
  | _, _, _ => none

/-- One `LapHistoryData` entry, `LAP_HISTORY_ENTRY_FORMAT = '<IHHHB'`. -/

structure LapHistoryEntry where
  lapTimeMs : ℕ
  sector1Ms : ℕ
  sector2Ms : ℕ
  sector3Ms : ℕ
  lapValidBitFlags : ℕ
deriving DecidableEq, Repr

/-- Unpack of one 11-byte lap-history entry at offset `off`:
succeeds iff the buffer holds `off + 11` bytes. -/

def parseLapHistoryEntry (d : List ℕ) (off : ℕ) : Option LapHistoryEntry :=
  match readU32 d off, readU16 d (off + 4), readU16 d (off + 6),
        readU16 d (off + 8), byteAt d (off + 10) with
  | some lt, some s1, some s2, some s3, some fl => some ⟨lt, s1, s2, s3, fl⟩
  | _, _, _, _, _ => none

/-- The `SESSION_TYPES` dict of the source. -/

def SESSION_TYPES : List (ℕ × String) :=
  [(0, "Unknown"), (1, "P1"), (2, "P2"), (3, "P3"), (4, "Short P"), (5, "Q1"),
   (6, "Q2"), (7, "Q3"), (8, "Short Q"), (9, "OSQ"), (10, "R"), (11, "R2"),
   (12, "R3"), (13, "Time Trial")]

/-- The `WEATHER_TYPES` dict of the source. -/

def WEATHER_TYPES : List (ℕ × String) :=
  [(0, "Clear"), (1, "Light Cloud"), (2, "Overcast"), (3, "Light Rain"),
   (4, "Heavy Rain"), (5, "Storm")]

/-- The `TRACK_IDS` dict of the source (keys are signed: `-1` is present). -/

def TRACK_IDS : List (ℤ × String) :=
  [(0, "Melbourne"), (1, "Paul Ricard"), (2, "Shanghai"), (3, "Sakhir (Bahrain)"),
   (4, "Catalunya"), (5, "Monaco"), (6, "Montreal"), (7, "Silverstone"),
   (8, "Hockenheim"), (9, "Hungaroring"), (10, "Spa"), (11, "Monza"),
   (12, "Singapore"), (13, "Suzuka"), (14, "Abu Dhabi"), (15, "Texas"),
   (16, "Brazil"), (17, "Austria"), (18, "Sochi"), (19, "Mexico"),
   (20, "Baku (Azerbaijan)"), (21, "Sakhir Short"), (22, "Silverstone Short"),
   (23, "Texas Short"), (24, "Suzuka Short"), (25, "Hanoi"), (26, "Zandvoort"),
   (27, "Imola"), (28, "Portimão"), (29, "Jeddah"), (30, "Miami"),
   (-1, "Unknown")]

/-- The `TEAM_IDS` dict of the source (apostrophes written as `\x27`). -/

def TEAM_IDS : List (ℕ × String) :=
  [(0, "Mercedes"), (1, "Ferrari"), (2, "Red Bull Racing"), (3, "Williams"),
   (4, "Aston Martin"), (5, "Alpine"), (6, "Alpha Tauri"), (7, "Haas"),
   (8, "McLaren"), (9, "Alfa Romeo"), (85, "Mercedes 2020"), (86, "Ferrari 2020"),
   (87, "Red Bull 2020"), (88, "Williams 2020"), (89, "Racing Point 2020"),
   (90, "Renault 2020"), (91, "Alpha Tauri 2020"), (92, "Haas 2020"),
   (93, "McLaren 2020"), (94, "Alfa Romeo 2020"), (95, "Aston Martin DB11 V12"),
   (96, "Aston Martin Vantage F1 Edition"), (97, "Aston Martin Vantage Safety Car"),
   (98, "Ferrari F8 Tributo"), (99, "Ferrari Roma"), (100, "McLaren 720S"),
   (101, "McLaren Artura"), (102, "Mercedes AMG GT Black Series Safety Car"),
   (103, "Mercedes AMG GTR Pro"), (104, "F1 Custom Team"), (106, "Prema \x2721"),
   (107, "Uni-Virtuosi \x2721"), (108, "Carlin \x2721"), (109, "Hitech \x2721"),
   (110, "Art GP \x2721"), (111, "MP Motorsport \x2721"), (112, "Charouz \x2721"),
   (113, "Dams \x2721"), (114, "Campos \x2721"), (115, "BWT \x2721"),
   (116, "Trident \x2721"), (117, "Mercedes AMG GT Black Series"),
   (118, "Prema \x2722"), (119, "Virtuosi \x2722"), (120, "Carlin \x2722"),
   (121, "Hitech \x2722"), (122, "Art GP \x2722"), (123, "MP Motorsport \x2722"),
   (124, "Charouz \x2722"), (125, "Dams \x2722"), (126, "Campos \x2722"),
   (127, "Van Amersfoort Racing \x2722"), (128, "Trident \x2722")]

/-- Python `dict.get(key, default)` over an association list. -/

def dictGet {α : Type} [DecidableEq α] (t : List (α × String)) (k : α)
    (dflt : String) : String :=
  ((t.find? (fun p => decide (p.1 = k))).map Prod.snd).getD dflt

/-- Model of `get_session_type_str`. -/

def get_session_type_str (n : ℕ) : String := dictGet SESSION_TYPES n "Unknown"

/-- Model of `get_track_name_str`. -/

def get_track_name_str (t : ℤ) : String := dictGet TRACK_IDS t "Unknown Track"

/-- Model of `get_weather_str`. -/

def get_weather_str (w : ℕ) : String := dictGet WEATHER_TYPES w "Unknown Weather"

/-- Model of `get_team_name_str`. -/

def get_team_name_str (t : ℕ) : String := dictGet TEAM_IDS t "Unknown Car"

/-- The context snapshot stored as the value of `pending_lap_details`. -/

structure PendingInfo where
  sessionType : String
  trackName : String
  raceCar : String
  weather : String
deriving DecidableEq, Repr

/-- One row appended to the CSV by `log_lap_data_to_csv` (the tuple built
in `process_session_history_packet`). -/

structure FinalizedRecord where
  sessionId : ℕ
  sessionType : String
  trackName : String
  raceCar : String
  weather : String
  lapNumber : ℕ
  s1 : ℚ
  s2 : ℚ
  s3 : ℚ
  total : ℚ
  valid : Bool
deriving DecidableEq, Repr

/-- The module-level mutable state of `f1_telemetry_logger.py`.
`pending_lap_details` is a Python dict with tuple keys: an association
list in insertion order with (in any state the program reaches) no
duplicate keys.  `logged_laps_in_session` is a Python set, modelled as a
duplicate-free list.  `next_uuid` models `uuid.uuid4()` freshness. -/

structure TrackerState where
  current_session_id : Option ℕ
  last_processed_session_uid : Option ℕ  -- _internal_last_processed_session_uid_for_id_generation
  last_processed_session_type : ℤ        -- _internal_last_processed_session_type_for_id_generation, starts -1
  player_car_index : Option ℕ
  current_track_name : String
  current_race_car : String
  current_session_type_str : String
  current_weather_str : String
  pending_lap_details : List ((ℕ × ℕ) × PendingInfo)
  logged_laps_in_session : List (ℕ × ℕ)
  last_session_id_for_lap_reset_cache : Option ℕ
  next_uuid : ℕ
  log : List FinalizedRecord
deriving DecidableEq, Repr

/-- The initial values of the module-level globals. -/

def initState : TrackerState :=
  { current_session_id := none
    last_processed_session_uid := none
    last_processed_session_type := -1
    player_car_index := none
    current_track_name := "Unknown"
    current_race_car := "Unknown"
    current_session_type_str := "Unknown"
    current_weather_str := "Unknown"
    pending_lap_details := []
    logged_laps_in_session := []
    last_session_id_for_lap_reset_cache := none
    next_uuid := 0
    log := [] }

/-- Value of `ms / 1000.0` rounded to three decimals, which is exact on integer
millisecond inputs (see the header comment). -/

def msToSec (ms : ℕ) : ℚ := (ms : ℚ) / 1000

/-- Test `(lap_valid_bit_flags & 0x01) != 0`: overall lap validity. -/

def lapValidBit (flags : ℕ) : Bool := decide (flags &&& 1 ≠ 0)

/-- Test `(lap_valid_bit_flags & 0x08) != 0`: sector-3 validity. -/

def s3ValidBit (flags : ℕ) : Bool := decide (flags &&& 8 ≠ 0)

/-- The sector-3 reconciliation of `process_session_history_packet`:
calculated `lap - (s1 + s2)` when non-negative, else the direct sector-3
field when its validity bit is set and it is positive, else `0.000`. -/

def computeS3FinalSec (lapMs s1Ms s2Ms s3DirectMs flags : ℕ) : ℚ :=
  let s3calc : ℚ := ((lapMs : ℚ) - ((s1Ms : ℚ) + (s2Ms : ℚ))) / 1000
  if s3calc < 0 then
    if s3ValidBit flags = true ∧ 0 < s3DirectMs then msToSec s3DirectMs else 0
  else s3calc

/-- The `log_entry` tuple built for a matched pending lap. -/

def mkFinalizedRecord (sid lapNum : ℕ) (info : PendingInfo)
    (e : LapHistoryEntry) : FinalizedRecord :=
  { sessionId := sid
    sessionType := info.sessionType
    trackName := info.trackName
    raceCar := info.raceCar
    weather := info.weather
    lapNumber := lapNum
    s1 := msToSec e.sector1Ms
    s2 := msToSec e.sector2Ms
    s3 := computeS3FinalSec e.lapTimeMs e.sector1Ms e.sector2Ms e.sector3Ms
            e.lapValidBitFlags
    total := msToSec e.lapTimeMs
    valid := lapValidBit e.lapValidBitFlags }

/-- One iteration of the pending-lap loop of
`process_session_history_packet`: `some record` when this pending key is
matched and its history entry unpacks, `none` when the key is skipped
(session mismatch, lap index out of `[0, num_laps)`, or `struct.error`
on the entry, which the source handles with `continue`). -/

def historyStep (d : List ℕ) (currentSid numLaps : ℕ)
    (kv : (ℕ × ℕ) × PendingInfo) : Option FinalizedRecord :=
  if kv.1.1 = currentSid ∧ 1 ≤ kv.1.2 ∧ kv.1.2 - 1 < numLaps then
    match parseLapHistoryEntry d
        (PACKET_HEADER_SIZE + SESSION_HISTORY_LEAD_DATA_SIZE
          + (kv.1.2 - 1) * LAP_HISTORY_ENTRY_SIZE) with
    | none => none
    | some e => some (mkFinalizedRecord kv.1.1 kv.1.2 kv.2 e)
  else none

/-- The rows logged by one history packet, in pending-iteration order. -/

def historyEmissions (d : List ℕ) (currentSid numLaps : ℕ)
    (pend : List ((ℕ × ℕ) × PendingInfo)) : List FinalizedRecord :=
  pend.filterMap (fun kv => historyStep d currentSid numLaps kv)

/-- The `keys_to_remove_from_pending` list built by one history packet. -/

def historyRemovals (d : List ℕ) (currentSid numLaps : ℕ)
    (pend : List ((ℕ × ℕ) × PendingInfo)) : List (ℕ × ℕ) :=
  pend.filterMap (fun kv =>
    if (historyStep d currentSid numLaps kv).isSome then some kv.1 else none)

/-- Python `set.add` on the model of `logged_laps_in_session`. -/

def addLoggedKey (s : List (ℕ × ℕ)) (k : ℕ × ℕ) : List (ℕ × ℕ) :=
  if k ∈ s then s else s ++ [k]

/-- Model of `process_session_history_packet` (Packet ID 11).  Note, faithfully to
the source: the car filter compares the **header's** `m_playerCarIndex`
(tuple slot bound to `history_car_idx`) against the stored player index;
the payload `m_carIdx` at offset 24 is unpacked into `_car_idx_payload`
and never consulted. -/

def process_session_history_packet (st : TrackerState) (d : List ℕ) :
    TrackerState :=
  match st.player_car_index, st.current_session_id with
  | some pidx, some sid =>
    match parse_packet_header d with
    | none => st
    | some h =>
      if h.packetFormat ≠ 2022 ∨ h.packetId ≠ 11 then st
      else if h.playerCarIndex ≠ pidx then st
      else
        match parseSessionHistoryLead d with
        | none => st
        | some lead =>
          let ems := historyEmissions d sid lead.numLaps st.pending_lap_details
          let rems := historyRemovals d sid lead.numLaps st.pending_lap_details
          { st with
            log := st.log ++ ems
            logged_laps_in_session := rems.foldl addLoggedKey st.logged_laps_in_session
            pending_lap_details :=
              st.pending_lap_details.filter (fun kv => decide (kv.1 ∉ rems)) }
  | _, _ => st

/-- Model of `process_lap_data_packet` (Packet ID 2). -/

def process_lap_data_packet (st : TrackerState) (d : List ℕ) : TrackerState :=
  match st.player_car_index, st.current_session_id with
  | some _pidx, some sid =>
    match parse_packet_header d with
    | none => st
    | some h =>
      if h.packetFormat ≠ 2022 ∨ h.packetId ≠ 2 then st
      else if h.playerCarIndex < 22 then
        let st1 := { st with player_car_index := some h.playerCarIndex }
        let off := PACKET_HEADER_SIZE + h.playerCarIndex * LAP_DATA_SINGLE_CAR_SIZE
        match readU32 d off, byteAt d (off + 25) with
        | some lastLapMs, some curLapNum =>
          if 0 < lastLapMs ∧ 1 < curLapNum then
            let key : ℕ × ℕ := (sid, curLapNum - 1)
            if key ∉ st1.pending_lap_details.map Prod.fst
                ∧ key ∉ st1.logged_laps_in_session then
              { st1 with pending_lap_details :=
                  st1.pending_lap_details ++
                    [(key,
                      { sessionType := st1.current_session_type_str
                        trackName := st1.current_track_name
                        raceCar := st1.current_race_car
                        weather := st1.current_weather_str })] }
            else st1
          else st1
        | _, _ => st1
      else st
  | _, _ => st

/-- Model of `process_session_packet` (Packet ID 1). -/

def process_session_packet (st : TrackerState) (d : List ℕ) : TrackerState :=
  match parse_packet_header d with
  | none => st
  | some h =>
    if h.packetFormat ≠ 2022 then st
    else
      let st1 :=
        if h.playerCarIndex < 22 then
          { st with player_car_index := some h.playerCarIndex }
        else st
      match parseSessionPayload d with
      | none => st1
      | some p =>
        let st2 :=
          if some h.sessionUID ≠ st1.last_processed_session_uid
              ∨ (p.sessionType : ℤ) ≠ st1.last_processed_session_type then
            { st1 with
              current_session_id := some st1.next_uuid
              next_uuid := st1.next_uuid + 1
              last_processed_session_uid := some h.sessionUID
              last_processed_session_type := (p.sessionType : ℤ) }
          else st1
        { st2 with
          current_track_name := get_track_name_str p.trackId
          current_session_type_str := get_session_type_str p.sessionType
          current_weather_str := get_weather_str p.weather }

/-- Model of `process_participants_packet` (Packet ID 4).  The unguarded
`struct.unpack_from('<B', data, 24)` would raise out of the main loop's
dispatch when the buffer is exactly 24 bytes; state-wise no further
tracker field changes in that case, which is what the `none` branch
returns. -/

def process_participants_packet (st : TrackerState) (d : List ℕ) :
    TrackerState :=
  match st.player_car_index with
  | none => st
  | some j =>
    match parse_packet_header d with
    | none => st
    | some h =>
      if h.packetFormat ≠ 2022 then st
      else
        let j' := if h.playerCarIndex < 22 then h.playerCarIndex else j
        let st1 := { st with player_car_index := some j' }
        match byteAt d PACKET_HEADER_SIZE with
        | none => st1
        | some _numActive =>
          let off := PACKET_HEADER_SIZE + 1 + j' * 56
          if d.length < off + 56 then st1
          else
            match byteAt d (off + 3) with
            | none => st1
            | some teamId =>
              { st1 with current_race_car := get_team_name_str teamId }

/-- The Packet ID 1 branch of the main loop: process the session packet,
then clear the lap caches when the locally generated session id moved
past `_last_session_id_for_lap_reset_cache`. -/

def handleSessionPacket (st : TrackerState) (d : List ℕ) : TrackerState :=
  let st1 := process_session_packet st d
  if st1.current_session_id ≠ st1.last_session_id_for_lap_reset_cache then
    { st1 with
      logged_laps_in_session := []
      pending_lap_details := []
      last_session_id_for_lap_reset_cache := st1.current_session_id }
  else st1

/-- One iteration of the main receive loop on a received datagram:
length guard, header decode, format filter, player-index refresh from
any valid header, then dispatch on the packet id. -/

def handleDatagram (st : TrackerState) (d : List ℕ) : TrackerState :=
  if d.length < PACKET_HEADER_SIZE then st
  else
    match parse_packet_header d with
    | none => st
    | some h =>
      if h.packetFormat ≠ 2022 then st
      else
        let st1 :=
          if h.playerCarIndex < 22 then
            { st with player_car_index := some h.playerCarIndex }
          else st
        if h.packetId = 1 then handleSessionPacket st1 d
        else if h.packetId = 2 then process_lap_data_packet st1 d
        else if h.packetId = 4 then process_participants_packet st1 d
        else if h.packetId = 11 then process_session_history_packet st1 d
        else st1

/-- Tracker states the program can reach from start-up by receiving
datagrams. -/

inductive ReachableState : TrackerState → Prop
  | init : ReachableState initState
  | step (st : TrackerState) (d : List ℕ) :
      ReachableState st → ReachableState (handleDatagram st d)

/-- Little-endian byte encoding of a `uint8`. -/

def encU8 (v : ℕ) : List ℕ := [v % 256]

/-- Little-endian byte encoding of a `uint16`. -/

def encU16 (v : ℕ) : List ℕ := [v % 256, v / 256 % 256]

/-- Little-endian byte encoding of a `uint32`. -/

def encU32 (v : ℕ) : List ℕ :=
  [v % 256, v / 256 % 256, v / 65536 % 256, v / 16777216 % 256]

/-- Little-endian byte encoding of a `uint64`. -/

def encU64 (v : ℕ) : List ℕ :=
  encU32 (v % 4294967296) ++ encU32 (v / 4294967296)

/-- A 24-byte wire header with the given format, packet id, session UID
and player car index (game version, session time, frame id and
secondary index filled with fixed values, which the tracker ignores). -/

def mkHeaderBytes (fmt pid uid idx : ℕ) : List ℕ :=
  encU16 fmt ++ encU8 1 ++ encU8 18 ++ encU8 1 ++ encU8 pid ++ encU64 uid
    ++ encU32 0 ++ encU32 0 ++ encU8 idx ++ encU8 255

/-- An 11-byte `LapHistoryData` wire entry. -/

def mkHistoryEntryBytes (lap s1 s2 s3 flags : ℕ) : List ℕ :=
  encU32 lap ++ encU16 s1 ++ encU16 s2 ++ encU16 s3 ++ encU8 flags

/-- Concrete tracker state for the C5 witness: session known, player car
index 0, nothing pending or logged. -/

def stW5 : TrackerState :=
  { initState with
    player_car_index := some 0
    current_session_id := some 0
    last_processed_session_uid := some 999
    last_processed_session_type := 10
    current_track_name := "Silverstone"
    current_session_type_str := "R"
    current_weather_str := "Clear"
    last_session_id_for_lap_reset_cache := some 0
    next_uuid := 1 }

/-- Concrete lap-data datagram for the C5 witness: lastLapTimeMS 85000,
currentLapNum 3 for car index 0. -/

def dW5 : List ℕ :=
  mkHeaderBytes 2022 2 999 0 ++ encU32 85000 ++ List.replicate 21 0 ++ [3]

/-- Concrete session datagram for the C7 witness: format 2022, packet
id 1, session UID 999, session type 10 (R), track 7 (Silverstone). -/

def dW7 : List ℕ :=
  mkHeaderBytes 2022 1 999 0 ++ [0, 30, 25, 50, 0, 0, 10, 7]

/-- Concrete tracker state for the C1 witness: lap 2 pending for the
current session. -/

def stW1 : TrackerState :=
  { initState with
    player_car_index := some 0
    current_session_id := some 0
    next_uuid := 1
    last_session_id_for_lap_reset_cache := some 0
    pending_lap_details := [((0, 2), ⟨"R", "Silverstone", "Unknown", "Clear"⟩)] }

/-- Concrete session-history datagram for the C1 witness: numLaps 2,
entry[1] = lapTimeMS 85000, s1 28000, s2 29000, s3 28000, flags 0x01. -/

def dW1 : List ℕ :=
  mkHeaderBytes 2022 11 999 0 ++ [0, 2, 0, 0, 0, 0, 0]
    ++ mkHistoryEntryBytes 92000 30000 31000 31000 1
    ++ mkHistoryEntryBytes 85000 28000 29000 28000 1

/-- The pending-key/logged-key disjointness invariant. -/

def PendingLoggedDisjoint (st : TrackerState) : Prop :=
  ∀ k, k ∈ st.pending_lap_details.map Prod.fst → k ∉ st.logged_laps_in_session

/-- Session datagram reaching the C10 witness state. -/

def dW10a : List ℕ :=
  mkHeaderBytes 2022 1 999 0 ++ [0, 30, 25, 50, 0, 0, 10, 7]

/-- Lap-data datagram reaching the C10 witness state: lastLapTimeMS
85000, currentLapNum 3 for car index 0. -/

def dW10b : List ℕ :=
  mkHeaderBytes 2022 2 999 0 ++ encU32 85000 ++ List.replicate 21 0 ++ [3]

/-- The reachable state after a session packet and a lap-data packet:
lap 2 is pending and nothing is logged. -/

def stW10 : TrackerState := handleDatagram (handleDatagram initState dW10a) dW10b

/-- Modelled from `src/src/telemetry/models.py` `LapData` (a ctypes

structure with `_pack_ = 1`): one wire-format entry of
`PacketLapData.m_lapData[22]`, 43 bytes — uint32 lastLapTime, uint32
currentLapTime, uint16 s1, uint16 s2, three float32 (raw 4-byte groups
here), fourteen single-byte fields (carPosition, currentLapNum,
pitStatus, numPitStops, sector, currentLapInvalid, penalties, warnings,
numUnservedDriveThroughPens, numUnservedStopGoPens, gridPosition,
driverStatus, resultStatus, pitLaneTimerActive), uint16 pitLaneTime,
uint16 pitStopTimer, uint8 pitStopShouldServePen. -/

def mkLapDataEntry43 (lastLapMs curLapMs s1 s2 carPos curLapNum tail : ℕ) :
    List ℕ :=
  encU32 lastLapMs ++ encU32 curLapMs ++ encU16 s1 ++ encU16 s2
    ++ encU32 0 ++ encU32 0 ++ encU32 0
    ++ encU8 carPos ++ encU8 curLapNum ++ List.replicate 12 0
    ++ encU16 0 ++ encU16 0 ++ encU8 tail

/-- Tracker state for the C2 demonstration: player car index 1. -/

def stW2 : TrackerState :=
  { initState with
    player_car_index := some 1
    current_session_id := some 0
    next_uuid := 1
    last_session_id_for_lap_reset_cache := some 0 }

/-- Lap-data datagram of two wire-format 43-byte entries: entry 1 (the
player's) carries lastLapTimeMS 85000 and currentLapNum 3; entry 0 ends
in a non-zero pitStopShouldServePen byte. -/

def dW2 : List ℕ :=
  mkHeaderBytes 2022 2 999 1
    ++ mkLapDataEntry43 90000 0 30000 31000 5 2 170
    ++ mkLapDataEntry43 85000 0 28000 29000 0 3 0

/-- Tracker state for the C3 demonstration: player car 0, lap 2 pending. -/

def stW3 : TrackerState :=
  { initState with
    player_car_index := some 0
    current_session_id := some 0
    next_uuid := 1
    last_session_id_for_lap_reset_cache := some 0
    pending_lap_details := [((0, 2), ⟨"R", "Silverstone", "Unknown", "Clear"⟩)] }

/-- Session-history datagram whose payload `m_carIdx` (byte 24) is 5 —
another car, not the player's 0 — while the header's playerCarIndex
(byte 22) is 0. -/

def dW3 : List ℕ :=
  mkHeaderBytes 2022 11 999 0 ++ [5, 2, 0, 0, 0, 0, 0]
    ++ mkHistoryEntryBytes 92000 30000 31000 31000 1
    ++ mkHistoryEntryBytes 85000 28000 29000 28000 1

/-- A buffer shorter than the header cannot provide byte 23. -/
lemma byteAt_eq_none_of_lt {d : List ℕ} {i : ℕ} (h : d.length ≤ i) :
    byteAt d i = none := by
  unfold byteAt
  rw [List.get?_eq_none.mpr h]
  rfl

/-- Header decoding fails on buffers shorter than 24 bytes. -/
lemma parse_packet_header_eq_none {d : List ℕ} (h : d.length < 24) :
    parse_packet_header d = none := by
  have h23 : byteAt d 23 = none := byteAt_eq_none_of_lt (by omega)
  unfold parse_packet_header
  split
  · simp_all
  · rfl

/-- A successful header decode read its format field at offset 0. -/
lemma parse_packet_header_format {d : List ℕ} {h : PacketHeader}
    (hp : parse_packet_header d = some h) : readU16 d 0 = some h.packetFormat := by
  unfold parse_packet_header at hp
  split at hp
  · cases hp
    simp_all
  · cases hp

/-- C9: every received buffer of length strictly less than 24 bytes is
rejected before any header or payload field is decoded, for every packet
type: the main-loop step leaves the tracker state unchanged, and header
decoding itself fails rather than reading any field. -/
theorem C9_short_buffer_rejected (st : TrackerState) (d : List ℕ)
    (hlen : d.length < 24) :
    handleDatagram st d = st ∧ parse_packet_header d = none := by
  constructor
  · unfold handleDatagram
    rw [if_pos (by simpa [PACKET_HEADER_SIZE] using hlen)]
  · exact parse_packet_header_eq_none hlen

/-- Witness for C9 at a concrete 3-byte datagram. -/
theorem C9_short_buffer_rejected_witness :
    handleDatagram initState [7, 208, 1] = initState
      ∧ parse_packet_header [7, 208, 1] = none :=
  C9_short_buffer_rejected initState [7, 208, 1] (by decide)

/-- C8: a datagram whose header format-version field differs from 2022 is
dropped: the main-loop step leaves the entire tracker state unchanged. -/
theorem C8_foreign_format_dropped (st : TrackerState) (d : List ℕ) (f : ℕ)
    (h0 : readU16 d 0 = some f) (hne : f ≠ 2022) :
    handleDatagram st d = st := by
  unfold handleDatagram
  split
  · rfl
  · split
    · rfl
    · rename_i h hp
      have hf : h.packetFormat = f := by
        have := parse_packet_header_format hp
        rw [h0] at this
        exact (Option.some.inj this).symm
      rw [if_pos (by rw [hf]; exact hne)]

/-- Witness for C8 at a concrete format-2021 header. -/
theorem C8_foreign_format_dropped_witness :
    readU16 (mkHeaderBytes 2021 1 999 0) 0 = some 2021
      ∧ handleDatagram initState (mkHeaderBytes 2021 1 999 0) = initState :=
  ⟨by decide, C8_foreign_format_dropped initState (mkHeaderBytes 2021 1 999 0)
    2021 (by decide) (by decide)⟩

/-- C4: the sector-3 value of every emitted record is never negative; it
is the calculated `(lapTimeMS - s1MS - s2MS) / 1000` whenever that is
non-negative, and otherwise the direct sector-3 field divided by 1000
exactly when the sector-3 validity bit is set and the field is positive,
else `0.000`. -/
theorem C4_sector3_reconciliation (sid lapNum : ℕ) (info : PendingInfo)
    (e : LapHistoryEntry) :
    0 ≤ (mkFinalizedRecord sid lapNum info e).s3
    ∧ (e.sector1Ms + e.sector2Ms ≤ e.lapTimeMs →
        (mkFinalizedRecord sid lapNum info e).s3
          = ((e.lapTimeMs : ℚ) - (e.sector1Ms : ℚ) - (e.sector2Ms : ℚ)) / 1000)
    ∧ (e.lapTimeMs < e.sector1Ms + e.sector2Ms →
        (mkFinalizedRecord sid lapNum info e).s3
          = if e.lapValidBitFlags &&& 8 ≠ 0 ∧ 0 < e.sector3Ms
            then (e.sector3Ms : ℚ) / 1000 else 0) := by
  have hcalc_lt : e.lapTimeMs < e.sector1Ms + e.sector2Ms →
      ((e.lapTimeMs : ℚ) - ((e.sector1Ms : ℚ) + (e.sector2Ms : ℚ))) / 1000 < 0 := by
    intro hlt
    apply div_neg_of_neg_of_pos _ (by norm_num)
    have : (e.lapTimeMs : ℚ) < (e.sector1Ms : ℚ) + (e.sector2Ms : ℚ) := by
      exact_mod_cast hlt
    linarith
  have hcalc_ge : e.sector1Ms + e.sector2Ms ≤ e.lapTimeMs →
      0 ≤ ((e.lapTimeMs : ℚ) - ((e.sector1Ms : ℚ) + (e.sector2Ms : ℚ))) / 1000 := by
    intro hle
    apply div_nonneg _ (by norm_num)
    have : (e.sector1Ms : ℚ) + (e.sector2Ms : ℚ) ≤ (e.lapTimeMs : ℚ) := by
      exact_mod_cast hle
    linarith
  refine ⟨?_, ?_, ?_⟩
  · simp only [mkFinalizedRecord, computeS3FinalSec]
    split_ifs with h1 h2
    · exact div_nonneg (by positivity) (by norm_num)
    · exact le_refl 0
    · exact not_lt.mp h1
  · intro hle
    simp only [mkFinalizedRecord, computeS3FinalSec]
    rw [if_neg (not_lt.mpr (hcalc_ge hle))]
    ring_nf
  · intro hlt
    simp only [mkFinalizedRecord, computeS3FinalSec]
    rw [if_pos (hcalc_lt hlt)]
    by_cases hc : e.lapValidBitFlags &&& 8 ≠ 0 ∧ 0 < e.sector3Ms
    · rw [if_pos ⟨by simp [s3ValidBit, hc.1], hc.2⟩, if_pos hc]
      rfl
    · rw [if_neg, if_neg hc]
      intro hcon
      exact hc ⟨by simpa [s3ValidBit] using hcon.1, hcon.2⟩

/-- Witness for C4: a malformed entry with `s1 + s2 > lapTime`, direct
sector-3 zero and its validity bit unset finalizes with sector-3 exactly
`0.000`, never negative. -/
theorem C4_sector3_reconciliation_witness :
    0 ≤ (mkFinalizedRecord 0 2 ⟨"R", "Silverstone", "Unknown", "Clear"⟩
          ⟨27000, 28000, 29000, 0, 0⟩).s3
    ∧ (mkFinalizedRecord 0 2 ⟨"R", "Silverstone", "Unknown", "Clear"⟩
          ⟨27000, 28000, 29000, 0, 0⟩).s3 = 0 := by
  refine ⟨(C4_sector3_reconciliation 0 2 _ _).1, ?_⟩
  have h := (C4_sector3_reconciliation 0 2
    ⟨"R", "Silverstone", "Unknown", "Clear"⟩ ⟨27000, 28000, 29000, 0, 0⟩).2.2
    (by norm_num)
  simpa using h

/-- Unfolding of `process_session_history_packet` when every guard
passes: append the emissions to the log, add the removed keys to the
logged set, and drop them from the pending table. -/
lemma hist_unfold (st : TrackerState) (d : List ℕ) (pidx sid : ℕ)
    (h : PacketHeader) (lead : SessionHistoryLead)
    (h1 : st.player_car_index = some pidx)
    (h2 : st.current_session_id = some sid)
    (h3 : parse_packet_header d = some h)
    (h4 : h.packetFormat = 2022) (h5 : h.packetId = 11)
    (h6 : h.playerCarIndex = pidx)
    (h7 : parseSessionHistoryLead d = some lead) :
    process_session_history_packet st d =
      { st with
        log := st.log ++ historyEmissions d sid lead.numLaps st.pending_lap_details
        logged_laps_in_session :=
          (historyRemovals d sid lead.numLaps st.pending_lap_details).foldl
            addLoggedKey st.logged_laps_in_session
        pending_lap_details :=
          st.pending_lap_details.filter (fun kv =>
            decide (kv.1 ∉ historyRemovals d sid lead.numLaps st.pending_lap_details)) } := by
  unfold process_session_history_packet
  rw [h1, h2, h3, h7]
  simp [h4, h5, h6]

/-- Either a history packet leaves the state unchanged, or every guard
of `process_session_history_packet` passes. -/
lemma hist_char (st : TrackerState) (d : List ℕ) :
    process_session_history_packet st d = st ∨
    ∃ pidx sid h lead,
      st.player_car_index = some pidx ∧ st.current_session_id = some sid ∧
      parse_packet_header d = some h ∧ h.packetFormat = 2022 ∧
      h.packetId = 11 ∧ h.playerCarIndex = pidx ∧
      parseSessionHistoryLead d = some lead := by
  rcases hp : st.player_car_index with _ | pidx
  · left
    unfold process_session_history_packet
    rw [hp]
  rcases hs : st.current_session_id with _ | sid
  · left
    unfold process_session_history_packet
    rw [hp, hs]
  rcases hh : parse_packet_header d with _ | h
  · left
    unfold process_session_history_packet
    rw [hp, hs, hh]
  by_cases hf : h.packetFormat ≠ 2022 ∨ h.packetId ≠ 11
  · left
    unfold process_session_history_packet
    rw [hp, hs, hh]
    simp [hf]
  by_cases hc : h.playerCarIndex ≠ pidx
  · left
    unfold process_session_history_packet
    rw [hp, hs, hh]
    simp [hf, hc]
  rcases hl : parseSessionHistoryLead d with _ | lead
  · left
    unfold process_session_history_packet
    rw [hp, hs, hh]
    simp [hf, hc, hl]
  push_neg at hf hc
  exact Or.inr ⟨pidx, sid, h, lead, rfl, rfl, rfl, hf.1, hf.2, hc, rfl⟩

/-- A pending entry whose `historyStep` fires contributes its key to the
removal list. -/
lemma mem_removals_of_step_some {d : List ℕ} {sid numLaps : ℕ}
    {l : List ((ℕ × ℕ) × PendingInfo)} {kv : (ℕ × ℕ) × PendingInfo}
    (hmem : kv ∈ l) (hstep : (historyStep d sid numLaps kv).isSome) :
    kv.1 ∈ historyRemovals d sid numLaps l := by
  unfold historyRemovals
  exact List.mem_filterMap.mpr ⟨kv, hmem, by rw [if_pos hstep]⟩

/-- Every pending entry that survives a history packet has a
non-firing `historyStep` for that packet. -/
lemma step_none_of_surviving {d : List ℕ} {sid numLaps : ℕ}
    {l : List ((ℕ × ℕ) × PendingInfo)} {kv : (ℕ × ℕ) × PendingInfo}
    (hmem : kv ∈ l.filter (fun kv =>
      decide (kv.1 ∉ historyRemovals d sid numLaps l))) :
    historyStep d sid numLaps kv = none := by
  rw [List.mem_filter] at hmem
  rcases hmem with ⟨hmem, hdec⟩
  by_contra hne
  have hs : (historyStep d sid numLaps kv).isSome := Option.ne_none_iff_isSome.mp hne
  have : kv.1 ∈ historyRemovals d sid numLaps l := mem_removals_of_step_some hmem hs
  simp only [decide_eq_true_eq] at hdec
  exact hdec this

/-- C6: re-delivery of a session-history packet is idempotent — once a
lap has been finalized by a history packet, processing the same packet
again leaves the emitted record list and the whole tracker state
unchanged, so at most one finalized-lap record is emitted per
(session id, lap number). -/
theorem C6_history_idempotent (st : TrackerState) (d : List ℕ) :
    process_session_history_packet (process_session_history_packet st d) d
      = process_session_history_packet st d := by
  rcases hist_char st d with he | ⟨pidx, sid, h, lead, h1, h2, h3, h4, h5, h6, h7⟩
  · rw [he]
    exact he
  · have e1 := hist_unfold st d pidx sid h lead h1 h2 h3 h4 h5 h6 h7
    have h1' : (process_session_history_packet st d).player_car_index = some pidx := by
      rw [e1]
      exact h1
    have h2' : (process_session_history_packet st d).current_session_id = some sid := by
      rw [e1]
      exact h2
    have e2 := hist_unfold (process_session_history_packet st d) d pidx sid h lead
      h1' h2' h3 h4 h5 h6 h7
    have hstepnone : ∀ kv ∈ (process_session_history_packet st d).pending_lap_details,
        historyStep d sid lead.numLaps kv = none := by
      intro kv hkv
      rw [e1] at hkv
      exact step_none_of_surviving hkv
    have hem : historyEmissions d sid lead.numLaps
        (process_session_history_packet st d).pending_lap_details = [] := by
      unfold historyEmissions
      exact List.filterMap_eq_nil_iff.mpr hstepnone
    have hrem : historyRemovals d sid lead.numLaps
        (process_session_history_packet st d).pending_lap_details = [] := by
      unfold historyRemovals
      refine List.filterMap_eq_nil_iff.mpr ?_
      intro kv hkv
      rw [if_neg]
      simp [hstepnone kv hkv]
    rw [e2, hem, hrem]
    simp

/-- C5: with player car index and session id known, a lap-data packet
inserts exactly one pending lap keyed (session id, currentLapNum − 1),
capturing the current session type, track, car and weather, precisely
when the extracted lastLapTimeMS is positive, currentLapNum exceeds 1,
and that key is neither pending nor already logged; under any other
condition the pending table is unchanged. -/
theorem C5_pending_lap_insertion (st : TrackerState) (d : List ℕ)
    (j sid : ℕ) (h : PacketHeader) (lastLapMs curLapNum : ℕ)
    (h1 : st.player_car_index = some j)
    (h2 : st.current_session_id = some sid)
    (h3 : parse_packet_header d = some h)
    (h4 : h.packetFormat = 2022) (h5 : h.packetId = 2)
    (h6 : h.playerCarIndex < 22)
    (h7 : readU32 d (PACKET_HEADER_SIZE
            + h.playerCarIndex * LAP_DATA_SINGLE_CAR_SIZE) = some lastLapMs)
    (h8 : byteAt d (PACKET_HEADER_SIZE
            + h.playerCarIndex * LAP_DATA_SINGLE_CAR_SIZE + 25) = some curLapNum) :
    (process_lap_data_packet st d).pending_lap_details =
      if 0 < lastLapMs ∧ 1 < curLapNum
          ∧ (sid, curLapNum - 1) ∉ st.pending_lap_details.map Prod.fst
          ∧ (sid, curLapNum - 1) ∉ st.logged_laps_in_session
      then st.pending_lap_details ++
        [((sid, curLapNum - 1),
          { sessionType := st.current_session_type_str
            trackName := st.current_track_name
            raceCar := st.current_race_car
            weather := st.current_weather_str })]
      else st.pending_lap_details := by
  unfold process_lap_data_packet
  rw [h1, h2, h3]
  simp only [h4, h5, ne_eq, not_true_eq_false, or_self, if_false, ite_false]
  rw [if_pos h6]
  simp only [h7, h8]
  by_cases hA : 0 < lastLapMs ∧ 1 < curLapNum
  · rw [if_pos hA]
    by_cases hB : (sid, curLapNum - 1) ∉ st.pending_lap_details.map Prod.fst
        ∧ (sid, curLapNum - 1) ∉ st.logged_laps_in_session
    · rw [if_pos (by simpa using hB), if_pos ⟨hA.1, hA.2, hB.1, hB.2⟩]
    · rw [if_neg (by simpa using hB), if_neg (by tauto)]
  · rw [if_neg hA, if_neg (by tauto)]

/-- Witness for C5: the packet with lastLapTimeMS = 85000 and
currentLapNum = 3 inserts exactly the pending lap keyed (session, 2). -/
theorem C5_pending_lap_insertion_witness :
    (process_lap_data_packet stW5 dW5).pending_lap_details =
      if 0 < 85000 ∧ 1 < 3
          ∧ ((0 : ℕ), 3 - 1) ∉ stW5.pending_lap_details.map Prod.fst
          ∧ ((0 : ℕ), 3 - 1) ∉ stW5.logged_laps_in_session
      then stW5.pending_lap_details ++
        [(((0 : ℕ), 3 - 1),
          { sessionType := stW5.current_session_type_str
            trackName := stW5.current_track_name
            raceCar := stW5.current_race_car
            weather := stW5.current_weather_str })]
      else stW5.pending_lap_details :=
  C5_pending_lap_insertion stW5 dW5 0 0 ⟨2022, 2, 999, 0⟩ 85000 3
    (by decide) (by decide) (by decide) (by decide) (by decide) (by decide)
    (by decide) (by decide)

/-- Unfolding of `process_session_packet` when the (wire session UID,
session type) pair differs from the last-seen pair: a fresh local id is
generated and the last-seen pair is updated, besides the unconditional
context-string updates. -/
lemma session_packet_new (st : TrackerState) (d : List ℕ)
    (h : PacketHeader) (p : SessionPayload)
    (h3 : parse_packet_header d = some h) (h4 : h.packetFormat = 2022)
    (hp : parseSessionPayload d = some p)
    (hnew : some h.sessionUID ≠ st.last_processed_session_uid
        ∨ (p.sessionType : ℤ) ≠ st.last_processed_session_type) :
    process_session_packet st d =
      { st with
        player_car_index :=
          if h.playerCarIndex < 22 then some h.playerCarIndex
          else st.player_car_index
        current_session_id := some st.next_uuid
        next_uuid := st.next_uuid + 1
        last_processed_session_uid := some h.sessionUID
        last_processed_session_type := (p.sessionType : ℤ)
        current_track_name := get_track_name_str p.trackId
        current_session_type_str := get_session_type_str p.sessionType
        current_weather_str := get_weather_str p.weather } := by
  have hfmt : ¬(h.packetFormat ≠ 2022) := by simp [h4]
  unfold process_session_packet
  simp only [h3]
  rw [if_neg hfmt]
  by_cases hpc : h.playerCarIndex < 22
  · rw [if_pos hpc]
    simp only [hp]
    rw [if_pos (by simpa using hnew)]
    simp [hpc]
  · rw [if_neg hpc]
    simp only [hp]
    rw [if_pos (by simpa using hnew)]
    simp [hpc]

/-- C7: a session packet whose (wire session UID, session type) pair
differs from the last-seen pair makes the main loop generate a fresh
local session id (different from the previous one) and clear both the
pending-lap table and the finalized-lap tracking set, so a lap number
finalized under the old session id is no longer suppressed. -/
theorem C7_session_change_resets (st : TrackerState) (d : List ℕ)
    (h : PacketHeader) (p : SessionPayload)
    (h3 : parse_packet_header d = some h) (h4 : h.packetFormat = 2022)
    (hp : parseSessionPayload d = some p)
    (hnew : some h.sessionUID ≠ st.last_processed_session_uid
        ∨ (p.sessionType : ℤ) ≠ st.last_processed_session_type)
    (hfresh1 : st.current_session_id ≠ some st.next_uuid)
    (hfresh2 : st.last_session_id_for_lap_reset_cache ≠ some st.next_uuid) :
    (handleSessionPacket st d).current_session_id = some st.next_uuid
    ∧ (handleSessionPacket st d).current_session_id ≠ st.current_session_id
    ∧ (handleSessionPacket st d).pending_lap_details = []
    ∧ (handleSessionPacket st d).logged_laps_in_session = [] := by
  have e1 := session_packet_new st d h p h3 h4 hp hnew
  have hne : (process_session_packet st d).current_session_id
      ≠ (process_session_packet st d).last_session_id_for_lap_reset_cache := by
    rw [e1]
    exact fun hcon => hfresh2 hcon.symm
  have e2 : handleSessionPacket st d =
      { process_session_packet st d with
        logged_laps_in_session := []
        pending_lap_details := []
        last_session_id_for_lap_reset_cache :=
          (process_session_packet st d).current_session_id } := by
    unfold handleSessionPacket
    simp only []
    rw [if_pos hne]
  rw [e2, e1]
  exact ⟨rfl, fun hcon => hfresh1 hcon.symm, rfl, rfl⟩

/-- Witness for C7 at the initial state and a concrete session packet. -/
theorem C7_session_change_resets_witness :
    (handleSessionPacket initState dW7).current_session_id
        = some initState.next_uuid
    ∧ (handleSessionPacket initState dW7).current_session_id
        ≠ initState.current_session_id
    ∧ (handleSessionPacket initState dW7).pending_lap_details = []
    ∧ (handleSessionPacket initState dW7).logged_laps_in_session = [] :=
  C7_session_change_resets initState dW7 ⟨2022, 1, 999, 0⟩ ⟨0, 10, 7⟩
    (by decide) (by decide) (by decide) (by decide) (by decide) (by decide)

/-- A firing `historyStep` concerns the current session and produces a
record carrying the pending key's lap number. -/
lemma historyStep_some {d : List ℕ} {sid numLaps : ℕ}
    {kv : (ℕ × ℕ) × PendingInfo} {r : FinalizedRecord}
    (h : historyStep d sid numLaps kv = some r) :
    kv.1.1 = sid ∧ r.lapNumber = kv.1.2 := by
  unfold historyStep at h
  split at h
  · rename_i hcond
    split at h
    · cases h
    · cases h
      exact ⟨hcond.1, rfl⟩
  · cases h

/-- Lemma: `historyStep` fires on a pending key of the current session whose
lap index is covered by the packet and whose entry unpacks. -/
lemma historyStep_fires (d : List ℕ) (sid numLaps n : ℕ) (info : PendingInfo)
    (e : LapHistoryEntry) (hn : 1 ≤ n) (hnl : n - 1 < numLaps)
    (he : parseLapHistoryEntry d (PACKET_HEADER_SIZE
        + SESSION_HISTORY_LEAD_DATA_SIZE + (n - 1) * LAP_HISTORY_ENTRY_SIZE)
        = some e) :
    historyStep d sid numLaps ((sid, n), info)
      = some (mkFinalizedRecord sid n info e) := by
  unfold historyStep
  rw [if_pos ⟨rfl, hn, hnl⟩]
  rw [he]

/-- A pending list not containing a key for lap `n` of the current
session emits no record for lap `n`. -/
lemma emissions_filter_nil (d : List ℕ) (sid numLaps n : ℕ)
    (l : List ((ℕ × ℕ) × PendingInfo))
    (hout : (sid, n) ∉ l.map Prod.fst) :
    (historyEmissions d sid numLaps l).filter
        (fun r => decide (r.lapNumber = n)) = [] := by
  induction l with
  | nil => rfl
  | cons kv tl ih =>
    obtain ⟨⟨a, b⟩, iv⟩ := kv
    rw [List.map_cons, List.mem_cons] at hout
    push_neg at hout
    obtain ⟨h1, h2⟩ := hout
    unfold historyEmissions at ih ⊢
    rw [List.filterMap_cons]
    cases hstep : historyStep d sid numLaps ((a, b), iv) with
    | none => exact ih h2
    | some r =>
      rcases historyStep_some hstep with ⟨hs, hl⟩
      have hrn : r.lapNumber ≠ n := by
        intro hcon
        exact h1 (by simp only at hs hl; rw [← hs, ← hl, hcon])
      rw [List.filter_cons, if_neg (by simpa using hrn)]
      exact ih h2

/-- A pending table with duplicate-free keys containing the key
(session, n) emits exactly one record for lap `n`, built from the
matching history entry. -/
lemma emissions_filter_single (d : List ℕ) (sid numLaps n : ℕ)
    (info : PendingInfo) (e : LapHistoryEntry)
    (l : List ((ℕ × ℕ) × PendingInfo))
    (hnd : (l.map Prod.fst).Nodup)
    (hmem : ((sid, n), info) ∈ l)
    (hn : 1 ≤ n) (hnl : n - 1 < numLaps)
    (he : parseLapHistoryEntry d (PACKET_HEADER_SIZE
        + SESSION_HISTORY_LEAD_DATA_SIZE + (n - 1) * LAP_HISTORY_ENTRY_SIZE)
        = some e) :
    (historyEmissions d sid numLaps l).filter
        (fun r => decide (r.lapNumber = n))
      = [mkFinalizedRecord sid n info e] := by
  induction l with
  | nil => cases hmem
  | cons kv tl ih =>
    rw [List.map_cons] at hnd
    obtain ⟨hhd, htl⟩ := List.nodup_cons.mp hnd
    rcases List.mem_cons.mp hmem with heq | hmemtl
    · have hstep := historyStep_fires d sid numLaps n info e hn hnl he
      rw [← heq] at hhd ⊢
      unfold historyEmissions
      simp only [List.filterMap_cons, hstep]
      rw [List.filter_cons, if_pos (by simp [mkFinalizedRecord])]
      have hnil := emissions_filter_nil d sid numLaps n tl (by simpa using hhd)
      unfold historyEmissions at hnil
      rw [hnil]
    · obtain ⟨⟨a, b⟩, iv⟩ := kv
      have hkv1 : (a, b) ≠ ((sid, n) : ℕ × ℕ) := by
        intro hcon
        rw [hcon] at hhd
        exact hhd (List.mem_map.mpr ⟨((sid, n), info), hmemtl, rfl⟩)
      unfold historyEmissions
      rw [List.filterMap_cons]
      cases hstep : historyStep d sid numLaps ((a, b), iv) with
      | none => exact ih htl hmemtl
      | some r =>
        rcases historyStep_some hstep with ⟨hs, hl⟩
        have hrn : r.lapNumber ≠ n := by
          intro hcon
          simp only at hs hl
          exact hkv1 (by rw [hs, ← hl, hcon])
        rw [List.filter_cons, if_neg (by simpa using hrn)]
        exact ih htl hmemtl

/-- After a history packet finalizes lap `n`, the key (session, n) is no
longer in the pending table. -/
lemma target_removed_from_pending (d : List ℕ) (sid numLaps n : ℕ)
    (info : PendingInfo) (e : LapHistoryEntry)
    (l : List ((ℕ × ℕ) × PendingInfo))
    (hmem : ((sid, n), info) ∈ l)
    (hn : 1 ≤ n) (hnl : n - 1 < numLaps)
    (he : parseLapHistoryEntry d (PACKET_HEADER_SIZE
        + SESSION_HISTORY_LEAD_DATA_SIZE + (n - 1) * LAP_HISTORY_ENTRY_SIZE)
        = some e) :
    (sid, n) ∉ (l.filter (fun kv =>
        decide (kv.1 ∉ historyRemovals d sid numLaps l))).map Prod.fst := by
  intro hcon
  rcases List.mem_map.mp hcon with ⟨kv, hkvmem, hfst⟩
  have h1 := (List.mem_filter.mp hkvmem).2
  simp only [decide_eq_true_eq] at h1
  apply h1
  rw [hfst]
  exact mem_removals_of_step_some hmem
    (by rw [historyStep_fires d sid numLaps n info e hn hnl he]; rfl)

/-- Calculated sector 3 is used verbatim when `s1 + s2 ≤ lapTime`. -/
lemma computeS3_of_le {L s1 s2 s3d fl : ℕ} (h : s1 + s2 ≤ L) :
    computeS3FinalSec L s1 s2 s3d fl
      = ((L : ℚ) - (s1 : ℚ) - (s2 : ℚ)) / 1000 := by
  unfold computeS3FinalSec
  rw [if_neg (not_lt.mpr (div_nonneg (by
    have : (s1 : ℚ) + (s2 : ℚ) ≤ (L : ℚ) := by exact_mod_cast h
    linarith) (by norm_num)))]
  ring

/-- C1: a history packet for the player's car covering a pending lap `n`
of the current session emits exactly one finalized record for lap `n`
— total = lapTimeMS/1000, s1 = s1MS/1000, s2 = s2MS/1000,
s3 = (lapTimeMS − s1MS − s2MS)/1000 when non-negative, validity = bit 0
of the valid-flags byte — and removes (session id, n) from the pending
table. -/
theorem C1_pending_lap_finalized (st : TrackerState) (d : List ℕ)
    (pidx sid n : ℕ) (info : PendingInfo) (h : PacketHeader)
    (lead : SessionHistoryLead) (e : LapHistoryEntry)
    (h1 : st.player_car_index = some pidx)
    (h2 : st.current_session_id = some sid)
    (hnd : (st.pending_lap_details.map Prod.fst).Nodup)
    (hmem : ((sid, n), info) ∈ st.pending_lap_details)
    (h3 : parse_packet_header d = some h)
    (h4 : h.packetFormat = 2022) (h5 : h.packetId = 11)
    (h6 : h.playerCarIndex = pidx)
    (h7 : parseSessionHistoryLead d = some lead)
    (hn : 1 ≤ n) (hnl : n - 1 < lead.numLaps)
    (he : parseLapHistoryEntry d (PACKET_HEADER_SIZE
        + SESSION_HISTORY_LEAD_DATA_SIZE + (n - 1) * LAP_HISTORY_ENTRY_SIZE)
        = some e)
    (hs3 : e.sector1Ms + e.sector2Ms ≤ e.lapTimeMs) :
    (((process_session_history_packet st d).log.drop st.log.length).filter
        (fun r => decide (r.lapNumber = n)))
      = [{ sessionId := sid
           sessionType := info.sessionType
           trackName := info.trackName
           raceCar := info.raceCar
           weather := info.weather
           lapNumber := n
           s1 := (e.sector1Ms : ℚ) / 1000
           s2 := (e.sector2Ms : ℚ) / 1000
           s3 := ((e.lapTimeMs : ℚ) - (e.sector1Ms : ℚ) - (e.sector2Ms : ℚ)) / 1000
           total := (e.lapTimeMs : ℚ) / 1000
           valid := decide (e.lapValidBitFlags &&& 1 ≠ 0) }]
    ∧ (sid, n) ∉
        (process_session_history_packet st d).pending_lap_details.map Prod.fst := by
  have hu := hist_unfold st d pidx sid h lead h1 h2 h3 h4 h5 h6 h7
  constructor
  · rw [hu]
    simp only [List.drop_left]
    rw [emissions_filter_single d sid lead.numLaps n info e
      st.pending_lap_details hnd hmem hn hnl he]
    have hs3' := @computeS3_of_le e.lapTimeMs e.sector1Ms e.sector2Ms
      e.sector3Ms e.lapValidBitFlags hs3
    simp [mkFinalizedRecord, msToSec, lapValidBit, hs3']
  · rw [hu]
    exact target_removed_from_pending d sid lead.numLaps n info e
      st.pending_lap_details hmem hn hnl he

/-- Witness for C1: the pending lap 2 is finalized from history
entry[1] as total 85.000 s, s1 28.000, s2 29.000, s3 28.000, valid. -/
theorem C1_pending_lap_finalized_witness :
    (((process_session_history_packet stW1 dW1).log.drop stW1.log.length).filter
        (fun r => decide (r.lapNumber = 2)))
      = [{ sessionId := 0
           sessionType := "R"
           trackName := "Silverstone"
           raceCar := "Unknown"
           weather := "Clear"
           lapNumber := 2
           s1 := ((28000 : ℕ) : ℚ) / 1000
           s2 := ((29000 : ℕ) : ℚ) / 1000
           s3 := (((85000 : ℕ) : ℚ) - ((28000 : ℕ) : ℚ) - ((29000 : ℕ) : ℚ)) / 1000
           total := ((85000 : ℕ) : ℚ) / 1000
           valid := decide ((1 : ℕ) &&& 1 ≠ 0) }]
    ∧ ((0 : ℕ), (2 : ℕ)) ∉
        (process_session_history_packet stW1 dW1).pending_lap_details.map Prod.fst :=
  C1_pending_lap_finalized stW1 dW1 0 0 2 ⟨"R", "Silverstone", "Unknown", "Clear"⟩
    ⟨2022, 11, 999, 0⟩ ⟨0, 2⟩ ⟨85000, 28000, 29000, 28000, 1⟩
    (by decide) (by decide) (by decide) (by decide) (by decide) (by decide)
    (by decide) (by decide) (by decide) (by decide) (by decide) (by decide)
    (by decide)

/-- Membership after folding `addLoggedKey` (the `set.add` model). -/
lemma mem_foldl_addLoggedKey (l s : List (ℕ × ℕ)) (k : ℕ × ℕ) :
    k ∈ l.foldl addLoggedKey s ↔ k ∈ s ∨ k ∈ l := by
  induction l generalizing s with
  | nil => simp
  | cons a tl ih =>
    rw [List.foldl_cons, ih]
    unfold addLoggedKey
    split
    · rename_i hin
      simp only [List.mem_cons]
      constructor
      · rintro (h | h)
        · exact Or.inl h
        · exact Or.inr (Or.inr h)
      · rintro (h | h | h)
        · exact Or.inl h
        · exact Or.inl (h ▸ hin)
        · exact Or.inr h
    · simp only [List.mem_append, List.mem_singleton, List.mem_cons]
      tauto

/-- Invariance: `process_session_packet` leaves the pending table and the logged
set untouched. -/
lemma session_packet_preserves (st : TrackerState) (d : List ℕ) :
    (process_session_packet st d).pending_lap_details = st.pending_lap_details
    ∧ (process_session_packet st d).logged_laps_in_session
        = st.logged_laps_in_session := by
  unfold process_session_packet
  dsimp only
  repeat' split
  all_goals exact ⟨rfl, rfl⟩

/-- Invariance: `process_participants_packet` leaves the pending table and the
logged set untouched. -/
lemma participants_packet_preserves (st : TrackerState) (d : List ℕ) :
    (process_participants_packet st d).pending_lap_details
        = st.pending_lap_details
    ∧ (process_participants_packet st d).logged_laps_in_session
        = st.logged_laps_in_session := by
  unfold process_participants_packet
  dsimp only
  repeat' split
  all_goals exact ⟨rfl, rfl⟩

/-- The main-loop session branch preserves pending/logged disjointness
(it clears both sets or changes neither). -/
lemma handleSessionPacket_disjoint (st : TrackerState) (d : List ℕ)
    (hd : PendingLoggedDisjoint st) :
    PendingLoggedDisjoint (handleSessionPacket st d) := by
  unfold handleSessionPacket
  dsimp only
  split
  · intro k hk
    simp at hk
  · intro k hk
    rw [(session_packet_preserves st d).1] at hk
    rw [(session_packet_preserves st d).2]
    exact hd k hk

/-- The lap-data branch preserves pending/logged disjointness: a key is
inserted as pending only when it is in neither set. -/
lemma process_lap_data_disjoint (st : TrackerState) (d : List ℕ)
    (hd : PendingLoggedDisjoint st) :
    PendingLoggedDisjoint (process_lap_data_packet st d) := by
  unfold process_lap_data_packet
  dsimp only
  repeat' split
  all_goals try exact hd
  rename_i hguard
  intro k hk
  simp only [List.map_append, List.mem_append, List.map_cons, List.map_nil,
    List.mem_singleton, List.mem_cons, List.not_mem_nil, or_false] at hk
  rcases hk with hk | rfl
  · exact hd k hk
  · exact hguard.2

/-- The history branch preserves pending/logged disjointness:
finalization moves keys from pending to logged in the same step. -/
lemma process_history_disjoint (st : TrackerState) (d : List ℕ)
    (hd : PendingLoggedDisjoint st) :
    PendingLoggedDisjoint (process_session_history_packet st d) := by
  rcases hist_char st d with he | ⟨pidx, sid, h, lead, h1, h2, h3, h4, h5, h6, h7⟩
  · rw [he]
    exact hd
  · rw [hist_unfold st d pidx sid h lead h1 h2 h3 h4 h5 h6 h7]
    intro k hk
    simp only at hk ⊢
    rcases List.mem_map.mp hk with ⟨kv, hkvmem, hfst⟩
    rw [List.mem_filter] at hkvmem
    obtain ⟨hkvmem, hdec⟩ := hkvmem
    simp only [decide_eq_true_eq] at hdec
    rw [mem_foldl_addLoggedKey]
    rintro (hlog | hrem)
    · exact hd k (List.mem_map.mpr ⟨kv, hkvmem, hfst⟩) hlog
    · rw [← hfst] at hrem
      exact hdec hrem

/-- The player-index refresh of the main loop does not affect the
pending/logged sets. -/
lemma player_refresh_disjoint (st : TrackerState) (i : ℕ)
    (hd : PendingLoggedDisjoint st) :
    PendingLoggedDisjoint { st with player_car_index := some i } := hd

/-- One main-loop step preserves pending/logged disjointness. -/
lemma handleDatagram_disjoint (st : TrackerState) (d : List ℕ)
    (hd : PendingLoggedDisjoint st) :
    PendingLoggedDisjoint (handleDatagram st d) := by
  unfold handleDatagram
  dsimp only
  split
  · exact hd
  split
  · exact hd
  split
  · exact hd
  split
  · exact handleSessionPacket_disjoint _ d (by
      split
      · exact hd
      · exact hd)
  split
  · exact process_lap_data_disjoint _ d (by
      split
      · exact hd
      · exact hd)
  split
  · intro k hk
    rw [(participants_packet_preserves _ d).1] at hk
    rw [(participants_packet_preserves _ d).2]
    revert k hk
    split
    · exact hd
    · exact hd
  split
  · exact process_history_disjoint _ d (by
      split
      · exact hd
      · exact hd)
  split
  · exact hd
  · exact hd

/-- C10: in every reachable tracker state the pending-lap key set and
the finalized (logged) key set are disjoint — no (session id, lap
number) is ever simultaneously pending and logged. -/
theorem C10_pending_logged_disjoint (st : TrackerState)
    (hr : ReachableState st) :
    ∀ k, k ∈ st.pending_lap_details.map Prod.fst
      → k ∉ st.logged_laps_in_session := by
  induction hr with
  | init =>
    intro k hk
    simp [initState] at hk
  | step st d _hr ih => exact handleDatagram_disjoint st d ih

/-- Witness for C10 at a concrete reachable state with a pending lap. -/
theorem C10_pending_logged_disjoint_witness :
    (((0 : ℕ), (2 : ℕ)) ∈ stW10.pending_lap_details.map Prod.fst)
    ∧ (((0 : ℕ), (2 : ℕ)) ∉ stW10.logged_laps_in_session) :=
  ⟨by decide,
   C10_pending_logged_disjoint stW10
     (ReachableState.step _ dW10b (ReachableState.step _ dW10a ReachableState.init))
     (0, 2) (by decide)⟩

/-- C2 (divergence): the source computes a per-car lap-data entry size
of 42 — its format string has only thirteen mid-struct byte fields,
though its own comment says "Total expected size: 43 bytes" and the
ctypes `LapData` of `models.py` is 43 bytes — so for player car index 1
the tracker reads at offset 24 + 42 instead of 24 + 43: it does not see
the wire entry's lastLapTimeMS = 85000 / currentLapNum = 3 (which sit
at the 43-byte-stride offsets) and creates no pending lap. -/
theorem C2_lap_entry_size_code_bug :
    LAP_DATA_SINGLE_CAR_SIZE = 42
    ∧ readU32 dW2 (PACKET_HEADER_SIZE + 1 * 43) = some 85000
    ∧ byteAt dW2 (PACKET_HEADER_SIZE + 1 * 43 + 25) = some 3
    ∧ readU32 dW2 (PACKET_HEADER_SIZE + 1 * LAP_DATA_SINGLE_CAR_SIZE)
        ≠ some 85000
    ∧ (process_lap_data_packet stW2 dW2).pending_lap_details
        = stW2.pending_lap_details :=
  ⟨by decide, by decide, by decide, by decide, by decide⟩

/-- C3 (divergence): the source's car filter compares the header's
playerCarIndex slot (bound to `history_car_idx`) instead of the payload
`m_carIdx` it unpacks into the unused `_car_idx_payload`; a history
packet whose payload carIdx (5) differs from the player's index (0) is
therefore not a no-op — it finalizes and removes the pending lap. -/
theorem C3_payload_carIdx_ignored_code_bug :
    byteAt dW3 24 = some 5
    ∧ stW3.player_car_index = some 0
    ∧ (5 : ℕ) ≠ 0
    ∧ (process_session_history_packet stW3 dW3).log.length
        = stW3.log.length + 1
    ∧ (process_session_history_packet stW3 dW3).pending_lap_details = [] :=
  ⟨by decide, by decide, by decide, by decide, by decide⟩
